import Mathlib

/-!
Shallow embedding of the uklient modpack installer (`src/main.rs`) and proofs
about it.  Network and filesystem effects are made explicit: every collaborator
call (HTTP download, JSON decode, filesystem probe) is represented by its
result, passed in as data, and the repository's own sequencing and
error-adaptation logic is translated function by function from the source.
-/

set_option autoImplicit false

namespace Uklient

/-- The error enum `UklientError` of `src/main.rs` (lines 255-286).  Variants
carrying a collaborator error keep only the kind; `MetaError` carries the
backend name (`&'static str`) and `UnknownTypeError` the entry name
(`OsString`, modelled as `String`). -/
inductive UklientError where
  | JavaLocateError
  | RecvError
  | IoError
  | FsExtraError
  | JoinError
  | TheseusError
  | DaedalusError
  | JsonError
  | LibiumError
  | LibiumModpackError
  | FerinthError
  | ZipError
  | MetaError (backend : String)
  | UnknownTypeError (name : String)
deriving DecidableEq

/-! ## Version resolver (`get_latest_fabric`, `get_latest_quilt`) -/

/-- `MetaLoaderVersion` of `src/main.rs` lines 302-315: one decoded entry of
the loader-metadata JSON array. -/
structure MetaLoaderVersion where
  separator : String
  build : Nat
  maven : String
  version : String
  stable : Bool
deriving DecidableEq

/-- `LoaderVersionElement` of `src/main.rs` lines 297-300. -/
structure LoaderVersionElement where
  loader : MetaLoaderVersion
deriving DecidableEq

/-- `daedalus::modded::LoaderVersion` as constructed at lines 196-200 and
218-222 (`id`, `stable`, `url`). -/
structure LoaderVersion where
  id : String
  stable : Bool
  url : String
deriving DecidableEq

def FABRIC_META_URL : String := "https://meta.fabricmc.net/v2"

def QUILT_META_URL : String := "https://meta.quiltmc.org/v3"

/-- `get_latest_fabric` (`src/main.rs` lines 181-201).  The HTTP download and
JSON decode are made explicit: `versions` is the decoded array the metadata
endpoint returned for `mc_version`.  The source takes `versions.get(0)`,
errors with `MetaError("fabric")` on an empty list, and interpolates the
manifest URL from the fixed template. -/
def get_latest_fabric (mc_version : String)
    (versions : List LoaderVersionElement) : Except UklientError LoaderVersion :=
  match versions.get? 0 with
  | none => .error (.MetaError "fabric")
  | some elt =>
    let latest := elt.loader
    .ok { id := latest.version
          stable := latest.stable
          url := FABRIC_META_URL ++ "/versions/loader/" ++ mc_version ++ "/"
                   ++ latest.version ++ "/profile/json" }

/-- `get_latest_quilt` (`src/main.rs` lines 203-223); identical to the fabric
variant with the quilt meta base URL and backend name. -/
def get_latest_quilt (mc_version : String)
    (versions : List LoaderVersionElement) : Except UklientError LoaderVersion :=
  match versions.get? 0 with
  | none => .error (.MetaError "quilt")
  | some elt =>
    let latest := elt.loader
    .ok { id := latest.version
          stable := latest.stable
          url := QUILT_META_URL ++ "/versions/loader/" ++ mc_version ++ "/"
                   ++ latest.version ++ "/profile/json" }

/-- A concrete decoded metadata entry, used to instantiate theorems. -/
def sampleLoaderElt : LoaderVersionElement :=
  { loader := { separator := ".", build := 2, maven := "m",
                version := "0.17.2", stable := true } }

/-! ## Modpack metadata fetcher: version selection (`install_modpack` lines 109-116) -/

/-- Rust `char::to_ascii_lowercase`: shifts `A`-`Z` down into `a`-`z`,
leaves every other character unchanged. -/
def asciiLower (c : Char) : Char :=
  if 'A' ≤ c ∧ c ≤ 'Z' then Char.ofNat (c.toNat + 32) else c

/-- Rust `str::eq_ignore_ascii_case`: equality after ASCII-lowercasing both
sides. -/
def eqIgnoreAsciiCase (a b : String) : Bool :=
  a.data.map asciiLower == b.data.map asciiLower

/-- The fields of a `ferinth` modpack version used by `install_modpack`
(lines 109-118): display name, supported game versions, supported loaders. -/
structure ModpackVersion where
  name : String
  game_versions : List String
  loaders : List String
deriving DecidableEq

/-- The `filter` predicate at line 113: `v.game_versions.contains(&game_version)`. -/
def matchesGameVersion (game_version : String) (v : ModpackVersion) : Bool :=
  v.game_versions.contains game_version

/-- The `find` predicate at line 114:
`v.loaders.iter().any(|s| s.eq_ignore_ascii_case(&loader))`. -/
def matchesLoader (loader : String) (v : ModpackVersion) : Bool :=
  v.loaders.any (fun s => eqIgnoreAsciiCase s loader)

/-- The version-selection step of `install_modpack` (lines 109-116):
`list_versions` result (made explicit as `versions`), filtered by game
version, first hit on the loader predicate, `MetaError("modpack")` when
nothing matches. -/
def selectVersion (versions : List ModpackVersion) (game_version loader : String) :
    Except UklientError ModpackVersion :=
  match (versions.filter (matchesGameVersion game_version)).find?
      (matchesLoader loader) with
  | none => .error (.MetaError "modpack")
  | some v => .ok v

/-- A published version not matching game version 1.19.3. -/
def sampleVersionA : ModpackVersion :=
  { name := "a", game_versions := ["1.19.2"], loaders := ["fabric"] }

/-- A published version matching 1.19.3 with loader listed as `Quilt`. -/
def sampleVersionB : ModpackVersion :=
  { name := "b", game_versions := ["1.19.3"], loaders := ["Quilt"] }

/-! ## Local directories (`main` line 45, `install_modpack` lines 123-142)

Paths are modelled as lists of components; `PathBuf::join` with a single
component appends it. -/

/-- `PathBuf::join` with one component. -/
def pathJoin (p : List String) (c : String) : List String := p ++ [c]

/-- `main` line 45: `HOME.join(".uklient")` — the profile directory passed as
`path` of the `Profile` record (line 62) and as `output_dir` of
`install_modpack` (line 84). -/
def base_path (home : List String) : List String := pathJoin home ".uklient"

/-- `install_modpack` line 123:
`HOME.join(".config").join("uklient").join(".cache")`. -/
def cache_dir (home : List String) : List String :=
  pathJoin (pathJoin (pathJoin home ".config") "uklient") ".cache"

/-- `install_modpack` line 126: `cache_dir.join(&version_file.output)`. -/
def modpack_path (home : List String) (filename : String) : List String :=
  pathJoin (cache_dir home) filename

/-- `install_modpack` lines 138-142:
`HOME.join(".config").join("uklient").join(".tmp").join(metadata.name)`. -/
def tmp_dir (home : List String) (name : String) : List String :=
  pathJoin (pathJoin (pathJoin (pathJoin home ".config") "uklient") ".tmp") name

/-- Spaces replaced by underscores, as the spec describes for the profile
directory name. -/
def underscoreSpaces (s : String) : String :=
  String.mk (s.data.map fun c => if c = ' ' then '_' else c)

/-- Modelled from the spec: the profile directory §6 claims —
`<home>/.<app>/<modpack-name-with-spaces-replaced-by-underscores>` with app
`uklient`.  No such derivation exists in `src/main.rs`; this definition
follows the spec words so it can be compared with `base_path`. -/
def spec_profile_dir (home : List String) (modpackName : String) : List String :=
  pathJoin (pathJoin home ".uklient") (underscoreSpaces modpackName)

/-! ## Archive cache (`install_modpack` lines 123-131) -/

/-- The cache step of `install_modpack` (lines 126-131), starting after
`create_dir_all(&cache_dir)`.  `cacheFiles` is the set of filenames present
in the cache directory (so `modpack_path.exists()` is membership of
`filename`); `downloadOk` is the collaborator download's outcome (a failure
surfaces via `?` as a `LibiumError`).  Returns the cache contents afterwards,
the local path used, and how many network downloads were performed. -/
def ensure_cached (home : List String) (cacheFiles : List String)
    (filename : String) (downloadOk : Bool) :
    Except UklientError (List String × List String × Nat) :=
  if cacheFiles.contains filename then
    .ok (cacheFiles, modpack_path home filename, 0)
  else if downloadOk then
    .ok (filename :: cacheFiles, modpack_path home filename, 1)
  else
    .error .LibiumError

/-! ## Installer (`install_modpack` lines 148-167, `read_overrides` 172-179)

The profile directory is modelled as an association list from entry name to
filesystem kind; writing a file or copying a directory into it replaces any
same-named binding (overwrite). -/

/-- Filesystem kind of a directory entry, as probed by `is_file`/`is_dir`
(lines 157, 159); `other` is anything that is neither (e.g. a broken
symlink). -/
inductive FsKind where
  | file
  | dir
  | other
deriving DecidableEq

/-- One entry of `metadata.files` (line 148) together with the outcome of its
`downloadable.download` call (line 152): the byte size on success, the error
kind on failure. -/
structure FileEntry where
  name : String
  result : Except UklientError Nat

/-- One enumerated override entry (name and filesystem kind, lines 156-164),
together with the outcome of its copy call (`fs::copy` resp.
`fs_extra::dir::copy`). -/
structure OverrideEntry where
  name : String
  kind : FsKind
  copyOk : Bool

/-- Writing an entry into the output directory: overwrite-insert into the
association list. -/
def diskInsert (disk : List (String × FsKind)) (name : String) (k : FsKind) :
    List (String × FsKind) :=
  (name, k) :: disk.filter (fun p => p.1 != name)

/-- What the output directory holds under a name. -/
def diskLookup (disk : List (String × FsKind)) (name : String) :
    Option FsKind :=
  (disk.find? (fun p => p.1 == name)).map (fun p => p.2)

/-- The manifest-file loop of `install_modpack` (lines 148-154): sequential
downloads, each `?` aborting on the first failure.  Returns the directory
contents, the number of download calls issued, and the aborting error if
any. -/
def download_files : List FileEntry → List (String × FsKind) →
    List (String × FsKind) × Nat × Option UklientError
  | [], disk => (disk, 0, none)
  | f :: rest, disk =>
    match f.result with
    | .error e => (disk, 1, some e)
    | .ok _ =>
      let r := download_files rest (diskInsert disk f.name FsKind.file)
      (r.1, r.2.1 + 1, r.2.2)

/-- One iteration of the override loop (lines 157-165): `fs::copy` for a
file entry, `fs_extra::dir::copy` with `overwrite = true` for a directory
entry, `UnknownTypeError(name)` otherwise. -/
def apply_override (disk : List (String × FsKind)) (o : OverrideEntry) :
    Except UklientError (List (String × FsKind)) :=
  match o.kind with
  | .file => if o.copyOk then .ok (diskInsert disk o.name FsKind.file)
             else .error .IoError
  | .dir => if o.copyOk then .ok (diskInsert disk o.name FsKind.dir)
            else .error .FsExtraError
  | .other => .error (.UnknownTypeError o.name)

/-- The override loop of `install_modpack` (lines 156-167): sequential, the
first failing entry aborts. -/
def install_overrides : List OverrideEntry → List (String × FsKind) →
    List (String × FsKind) × Option UklientError
  | [], disk => (disk, none)
  | o :: rest, disk =>
    match apply_override disk o with
    | .error e => (disk, some e)
    | .ok d2 => install_overrides rest d2

/-- The two installer loops in source order (lines 148-167): all manifest
files, then all overrides.  Returns the directory contents, the number of
manifest download calls issued, and the first error if any. -/
def install_entries (files : List FileEntry) (ovs : List OverrideEntry)
    (disk : List (String × FsKind)) :
    List (String × FsKind) × Nat × Option UklientError :=
  match download_files files disk with
  | (d, n, some e) => (d, n, some e)
  | (d, n, none) =>
    let r := install_overrides ovs d
    (r.1, n, r.2)

/-- An override entry whose copy step succeeds: file or directory kind with a
successful copy call. -/
def overrideOk (o : OverrideEntry) : Prop :=
  (o.kind = FsKind.file ∨ o.kind = FsKind.dir) ∧ o.copyOk = true

/-! ## Credential bootstrap (`connect_account`, lines 225-253) -/

/-- The fields of `theseus::auth::Credentials` this program reads (`id` is
passed to the refresh call, `username` is printed). -/
structure Credentials where
  id : String
  username : String
deriving DecidableEq

/-- Outcomes of every collaborator call `connect_account` makes, in source
order: `File::open` (line 230), `serde_json::from_reader` (line 232),
`theseus::auth::refresh` (line 234, keyed by the parsed `id`), the oneshot
receive (line 245), `webbrowser::open` (line 246), the `flow.await` join and
the authentication result it carries (line 248), `File::create` (line 249)
and `serde_json::to_writer` (line 250).  `credFileExists` is
`credentials_path.try_exists()?`, assumed to probe successfully. -/
structure AuthEnv where
  credFileExists : Bool
  openResult : Except UklientError Unit
  parseResult : Except UklientError Credentials
  refreshResult : String → Except UklientError Credentials
  recvResult : Except UklientError Unit
  browserResult : Except UklientError Unit
  joinResult : Except UklientError (Except UklientError Credentials)
  createResult : Except UklientError Unit
  writeResult : Except UklientError Unit

/-- What `connect_account` returns, together with whether
`File::create("./credentials.json")` was executed (the observable write
effect on the credential file). -/
structure ConnectResult where
  result : Except UklientError Credentials
  fileCreated : Bool

/-- Lines 230-234: open the credential file, parse it, refresh by the parsed
id.  Each `?` in the source propagates out of `connect_account` itself (Rust
`?` returns from the enclosing function, not the enclosing block), so these
three steps form one fallible chain whose error is the function's result;
when the chain succeeds, the value bound to `credentials` at line 229 is
always `Ok` and the `if let Ok` at line 237 returns it. -/
def refresh_path (env : AuthEnv) : Except UklientError Credentials := do
  let _ ← env.openResult
  let creds ← env.parseResult
  let refreshed ← env.refreshResult creds.id
  pure refreshed

/-- Lines 242-248: oneshot receive, browser open, await of the spawned
authentication task (join error, then the task's own result). -/
def login_creds (env : AuthEnv) : Except UklientError Credentials := do
  let _ ← env.recvResult
  let _ ← env.browserResult
  let authResult ← env.joinResult
  let creds ← authResult
  pure creds

/-- Lines 249-250: `File::create` then `serde_json::to_writer`; the file is
created (truncated) once `File::create` succeeds. -/
def persist_credentials (env : AuthEnv) (creds : Credentials) : ConnectResult :=
  match env.createResult with
  | .error e => { result := .error e, fileCreated := false }
  | .ok _ =>
    match env.writeResult with
    | .error e => { result := .error e, fileCreated := true }
    | .ok _ => { result := .ok creds, fileCreated := true }

/-- The interactive browser-login flow (lines 242-252). -/
def interactive_login (env : AuthEnv) : ConnectResult :=
  match login_creds env with
  | .error e => { result := .error e, fileCreated := false }
  | .ok creds => persist_credentials env creds

/-- `connect_account` (lines 225-253).  When the credential file exists, the
result is whatever the open/parse/refresh chain produced — an open, parse or
refresh failure is returned as an error (see `refresh_path`), and the
interactive flow is reached only when the file does not exist.  Nothing is
created on the file-exists branch. -/
def connect_account (env : AuthEnv) : ConnectResult :=
  if env.credFileExists then
    { result := refresh_path env, fileCreated := false }
  else
    interactive_login env

/-- A run in which the credential file is present and refreshable, and the
interactive flow would also succeed. -/
def envValidRefresh : AuthEnv :=
  { credFileExists := true
    openResult := .ok ()
    parseResult := .ok { id := "id0", username := "uku" }
    refreshResult := fun _ => .ok { id := "id0", username := "uku" }
    recvResult := .ok ()
    browserResult := .ok ()
    joinResult := .ok (.ok { id := "id1", username := "uku" })
    createResult := .ok ()
    writeResult := .ok () }

/-- The same run without a credential file: the browser login runs. -/
def envBrowserLogin : AuthEnv :=
  { envValidRefresh with credFileExists := false }

/-! ## Full `install_modpack` pipeline (lines 100-170) -/

/-- `read_overrides` (lines 172-179): `read_dir` on the extracted overrides
directory collects the top-level entries; a missing directory makes
`read_dir` fail, surfacing as the I/O error kind. -/
def read_overrides (dir : Option (List OverrideEntry)) :
    Except UklientError (List OverrideEntry) :=
  match dir with
  | none => .error .IoError
  | some entries => .ok entries

/-- The decoded archive manifest (`deser_metadata`, lines 134-136): modpack
name and file list. -/
structure Metadata where
  name : String
  files : List FileEntry

/-- `File::open(modpack_path)` (line 133): an I/O error if it fails. -/
def open_modpack_file : Bool → Except UklientError Unit
  | true => .ok ()
  | false => .error .IoError

/-- `extract_zip` (lines 143-145): failure is mapped to the opaque
`ZipError`. -/
def extract_archive : Bool → Except UklientError Unit
  | true => .ok ()
  | false => .error .ZipError

/-- Collaborator outcomes `install_modpack` depends on, in source order: the
`list_versions` call (lines 109-111), the primary file's name (line 121),
the cache directory contents and the archive download (lines 123-131),
`File::open` (line 133), manifest decode (lines 134-136), `extract_zip`
(lines 143-145) and the extracted overrides directory (line 146; `none` when
the archive had no overrides subtree). -/
structure InstallEnv where
  home : List String
  listVersions : Except UklientError (List ModpackVersion)
  game_version : String
  loader : String
  primaryFilename : String
  cacheFiles : List String
  archiveDownloadOk : Bool
  openOk : Bool
  metadata : Except UklientError Metadata
  extractOk : Bool
  overridesDir : Option (List OverrideEntry)

/-- Result of a run of `install_modpack`: the error it returned if any, how
many manifest-file download calls were issued, and the final contents of
`output_dir`. -/
structure InstallOutcome where
  result : Option UklientError
  manifestDownloads : Nat
  disk : List (String × FsKind)

/-- Lines 109-146 of `install_modpack`: everything before the download loop —
version selection, archive cache, manifest decode, extraction, override
enumeration.  None of these steps downloads a manifest file or touches
`output_dir`. -/
def install_prelude (env : InstallEnv) :
    Except UklientError (Metadata × List OverrideEntry) := do
  let versions ← env.listVersions
  let _ ← selectVersion versions env.game_version env.loader
  let _ ← ensure_cached env.home env.cacheFiles env.primaryFilename
            env.archiveDownloadOk
  let _ ← open_modpack_file env.openOk
  let md ← env.metadata
  let _ ← extract_archive env.extractOk
  let ovs ← read_overrides env.overridesDir
  pure (md, ovs)

/-- `install_modpack` (lines 100-170): the prelude above, then the download
loop and the override loop on `output_dir`. -/
def install_modpack (env : InstallEnv)
    (disk : List (String × FsKind)) : InstallOutcome :=
  match install_prelude env with
  | .error e => { result := some e, manifestDownloads := 0, disk := disk }
  | .ok (md, ovs) =>
    match install_entries md.files ovs disk with
    | (d, n, r) => { result := r, manifestDownloads := n, disk := d }

/-- A concrete pipeline environment whose extracted archive has no overrides
directory. -/
def envNoOverrides : InstallEnv :=
  { home := ["home"]
    listVersions := .ok [sampleVersionB]
    game_version := "1.19.3"
    loader := "quilt"
    primaryFilename := "pack.mrpack"
    cacheFiles := ["pack.mrpack"]
    archiveDownloadOk := true
    openOk := true
    metadata := .ok { name := "pack"
                      files := [{ name := "a.jar", result := .ok 3 }] }
    extractOk := true
    overridesDir := none }


/-! ## Claims C2 and C3 -/

/-- C2: for either loader and any non-empty decoded metadata list, the
resolver returns the element at index 0 and builds the manifest URL by
substituting the meta base URL, the game version and the selected build
version into the fixed template; concretely, resolving fabric for game
version 1.19.3 with first listed loader version 0.17.2 yields the manifest
URL https://meta.fabricmc.net/v2/versions/loader/1.19.3/0.17.2/profile/json. -/
theorem resolver_picks_head_and_builds_url :
    (∀ (mc : String) (vs : List LoaderVersionElement), vs ≠ [] →
      ∃ e, vs.get? 0 = some e ∧
        get_latest_fabric mc vs = .ok
          { id := e.loader.version
            stable := e.loader.stable
            url := FABRIC_META_URL ++ "/versions/loader/" ++ mc ++ "/"
                     ++ e.loader.version ++ "/profile/json" } ∧
        get_latest_quilt mc vs = .ok
          { id := e.loader.version
            stable := e.loader.stable
            url := QUILT_META_URL ++ "/versions/loader/" ++ mc ++ "/"
                     ++ e.loader.version ++ "/profile/json" }) ∧
    (∀ sep build maven st,
      (get_latest_fabric "1.19.3"
          [{ loader := { separator := sep, build := build, maven := maven,
                         version := "0.17.2", stable := st } }]).map
          (fun lv => lv.url)
        = .ok "https://meta.fabricmc.net/v2/versions/loader/1.19.3/0.17.2/profile/json") := by
  constructor
  · intro mc vs hvs
    match vs with
    | [] => exact absurd rfl hvs
    | e :: tl =>
      refine ⟨e, rfl, ?_, ?_⟩ <;> rfl
  · intro sep build maven st
    rfl

/-- Witness for C2 at a concrete non-empty metadata list. -/
theorem resolver_picks_head_and_builds_url_witness :
    ∃ e, ([sampleLoaderElt] : List LoaderVersionElement).get? 0 = some e ∧
      get_latest_fabric "1.19.3" [sampleLoaderElt] = .ok
        { id := e.loader.version
          stable := e.loader.stable
          url := FABRIC_META_URL ++ "/versions/loader/" ++ "1.19.3" ++ "/"
                   ++ e.loader.version ++ "/profile/json" } ∧
      get_latest_quilt "1.19.3" [sampleLoaderElt] = .ok
        { id := e.loader.version
          stable := e.loader.stable
          url := QUILT_META_URL ++ "/versions/loader/" ++ "1.19.3" ++ "/"
                   ++ e.loader.version ++ "/profile/json" } :=
  resolver_picks_head_and_builds_url.1 "1.19.3" [sampleLoaderElt] (by decide)

/-- C3: for an empty decoded loader-version list the resolver fails with
`MetaError` carrying the loader name (`"fabric"` resp. `"quilt"`); being a
total function of the decoded list, it never panics. -/
theorem resolver_empty_list_meta_error (mc : String) :
    get_latest_fabric mc [] = .error (.MetaError "fabric") ∧
    get_latest_quilt mc [] = .error (.MetaError "quilt") :=
  ⟨rfl, rfl⟩

/-- Finding in a filtered list is finding with the conjunction of the two
predicates. -/
theorem filter_find?_fusion {α : Type} (p q : α → Bool) (l : List α) :
    (l.filter p).find? q = l.find? (fun a => p a && q a) := by
  induction l with
  | nil => rfl
  | cons a t ih =>
    by_cases hp : p a = true
    · by_cases hq : q a = true
      · simp [List.filter_cons, hp, hq]
      · simp only [List.filter_cons, hp, if_pos, if_true]
        rw [List.find?_cons_of_neg _ (by simp [hq]),
            List.find?_cons_of_neg _ (by simp [hp, hq])]
        exact ih
    · simp only [List.filter_cons, hp]
      rw [if_neg (by simp [hp]), List.find?_cons_of_neg _ (by simp [hp])]
      exact ih

/-! ## Claim C4 -/

/-- C4: the fetcher selects the first (host-ordered) published version whose
game-version set contains the target game version and whose loader list
contains the target loader under case-insensitive comparison, and fails with
`MetaError("modpack")` exactly when no version satisfies both filters. -/
theorem modpack_version_selection (versions : List ModpackVersion)
    (gv l : String) :
    (∀ v, selectVersion versions gv l = .ok v ↔
        versions.find? (fun v => matchesGameVersion gv v && matchesLoader l v)
          = some v) ∧
    (selectVersion versions gv l = .error (.MetaError "modpack") ↔
        ∀ v ∈ versions,
          ¬(matchesGameVersion gv v = true ∧ matchesLoader l v = true)) := by
  have hfuse := filter_find?_fusion (matchesGameVersion gv) (matchesLoader l)
    versions
  constructor
  · intro v
    unfold selectVersion
    rw [hfuse]
    cases hfind : versions.find?
        (fun v => matchesGameVersion gv v && matchesLoader l v) <;>
      simp [hfind]
  · unfold selectVersion
    rw [hfuse]
    cases hfind : versions.find?
        (fun v => matchesGameVersion gv v && matchesLoader l v)
    · simp only [List.find?_eq_none] at hfind
      simp only [true_iff]
      · intro v hv
        have := hfind v hv
        simpa [Bool.and_eq_true] using this
    · simp only [List.find?_eq_none] at *
      constructor
      · intro h
        exact absurd h (by simp)
      · intro h
        rcases List.mem_of_find?_eq_some hfind with hmem
        have hpred := List.find?_some hfind
        simp only [Bool.and_eq_true] at hpred
        exact absurd ⟨hpred.1, hpred.2⟩ (h _ hmem)

/-- Witness for C4: with host order `[A; B]`, target 1.19.3 / quilt, the
selection returns `B` — also exercising the case-insensitive loader match
(`Quilt` vs `quilt`). -/
theorem modpack_version_selection_witness :
    selectVersion [sampleVersionA, sampleVersionB] "1.19.3" "quilt"
      = .ok sampleVersionB :=
  ((modpack_version_selection [sampleVersionA, sampleVersionB] "1.19.3"
      "quilt").1 sampleVersionB).mpr (by decide)

/-! ## Claim C8 -/

/-- C8 counterexample: for a modpack name containing a space, the profile
directory claimed by the spec has the underscored name as an extra final
component, while the program uses the fixed `<home>/.uklient` (line 45) as
the profile path — the two differ. -/
theorem profile_dir_counterexample :
    spec_profile_dir ["home"] "uku pvp" ≠ base_path ["home"] := by decide

/-- C8 (amended): the cache path is
`<home>/.config/uklient/.cache/<filename>`, the scratch extraction directory
is `<home>/.config/uklient/.tmp/<modpack-name>`, and the profile directory is
the fixed `<home>/.uklient`, not derived from the modpack name. -/
theorem local_directories (home : List String) (filename name : String) :
    modpack_path home filename
        = home ++ [".config", "uklient", ".cache", filename] ∧
    tmp_dir home name = home ++ [".config", "uklient", ".tmp", name] ∧
    base_path home = home ++ [".uklient"] := by
  refine ⟨?_, ?_, ?_⟩ <;>
    simp [modpack_path, tmp_dir, base_path, cache_dir, pathJoin]

/-! ## Claim C5 -/

/-- C5: cache idempotence.  Whenever a first cache step succeeds, a second
step with the same filename is a pure hit: it performs no download (whatever
the network would do), returns the same local path and leaves the cache
unchanged, with no freshness, size or hash re-check; the first step
downloaded exactly once when the file was absent and not at all when it was
already present — so two runs from a cold cache perform exactly one
download. -/
theorem ensure_cached_idempotent (home : List String)
    (cache : List String) (f : String) (ok1 ok2 : Bool)
    (c1 p1 : List String) (n1 : Nat)
    (h : ensure_cached home cache f ok1 = .ok (c1, p1, n1)) :
    ensure_cached home c1 f ok2 = .ok (c1, p1, 0) ∧
    p1 = modpack_path home f ∧
    n1 = (if cache.contains f then 0 else 1) := by
  unfold ensure_cached at h ⊢
  by_cases hc : cache.contains f = true
  · rw [if_pos hc] at h
    simp only [Except.ok.injEq, Prod.mk.injEq] at h
    obtain ⟨rfl, rfl, rfl⟩ := h
    exact ⟨by rw [if_pos hc], rfl, by rw [if_pos hc]⟩
  · rw [if_neg hc] at h
    cases hok : ok1
    · rw [hok] at h
      simp at h
    · rw [hok, if_pos rfl] at h
      simp only [Except.ok.injEq, Prod.mk.injEq] at h
      obtain ⟨rfl, rfl, rfl⟩ := h
      refine ⟨by rw [if_pos (by simp)], rfl, by rw [if_neg hc]⟩

/-- Witness for C5: cold cache, successful download, then a second run —
one download total, same path both times. -/
theorem ensure_cached_idempotent_witness :
    ensure_cached ["home"] ["other.mrpack"] "pack.mrpack" true
        = .ok (["pack.mrpack", "other.mrpack"],
               modpack_path ["home"] "pack.mrpack", 1) ∧
      (ensure_cached ["home"] ["pack.mrpack", "other.mrpack"] "pack.mrpack"
          false
        = .ok (["pack.mrpack", "other.mrpack"],
               modpack_path ["home"] "pack.mrpack", 0) ∧
       modpack_path ["home"] "pack.mrpack"
         = modpack_path ["home"] "pack.mrpack" ∧
       (1 : Nat) = (if (["other.mrpack"] : List String).contains "pack.mrpack"
                      then 0 else 1)) :=
  ⟨by rfl,
   ensure_cached_idempotent ["home"] ["other.mrpack"] "pack.mrpack" true false
     ["pack.mrpack", "other.mrpack"] (modpack_path ["home"] "pack.mrpack") 1
     (by rfl)⟩

/-! ### Installer helper lemmas -/

theorem download_files_all_ok (files : List FileEntry)
    (disk : List (String × FsKind))
    (h : ∀ g ∈ files, ∃ n, g.result = .ok n) :
    download_files files disk =
      (files.foldl (fun d g => diskInsert d g.name FsKind.file) disk,
       files.length, none) := by
  induction files generalizing disk with
  | nil => rfl
  | cons f rest ih =>
    obtain ⟨n, hn⟩ := h f (by simp)
    simp only [download_files, hn]
    rw [ih (diskInsert disk f.name FsKind.file)
        (fun g hg => h g (by simp [hg]))]
    simp

theorem download_files_abort (pre : List FileEntry) (f : FileEntry)
    (post : List FileEntry) (disk : List (String × FsKind))
    (e : UklientError)
    (hpre : ∀ g ∈ pre, ∃ n, g.result = .ok n) (hf : f.result = .error e) :
    download_files (pre ++ f :: post) disk =
      (pre.foldl (fun d g => diskInsert d g.name FsKind.file) disk,
       pre.length + 1, some e) := by
  induction pre generalizing disk with
  | nil => simp [download_files, hf]
  | cons g rest ih =>
    obtain ⟨n, hn⟩ := hpre g (by simp)
    simp only [List.cons_append, download_files, hn, List.append_eq]
    rw [ih (diskInsert disk g.name FsKind.file)
        (fun g2 hg => hpre g2 (by simp [hg]))]
    simp [Nat.add_comm, Nat.add_assoc]

theorem apply_override_of_ok (disk : List (String × FsKind))
    (o : OverrideEntry) (h : overrideOk o) :
    apply_override disk o = .ok (diskInsert disk o.name o.kind) := by
  obtain ⟨hk, hc⟩ := h
  cases hk with
  | inl hfile => simp [apply_override, hfile, hc]
  | inr hdir => simp [apply_override, hdir, hc]

theorem install_overrides_all_ok (ovs : List OverrideEntry)
    (disk : List (String × FsKind)) (h : ∀ o ∈ ovs, overrideOk o) :
    install_overrides ovs disk =
      (ovs.foldl (fun d o => diskInsert d o.name o.kind) disk, none) := by
  induction ovs generalizing disk with
  | nil => rfl
  | cons o rest ih =>
    simp only [install_overrides, apply_override_of_ok disk o (h o (by simp))]
    rw [ih (diskInsert disk o.name o.kind) (fun p hp => h p (by simp [hp]))]
    simp

theorem install_overrides_abort (pre : List OverrideEntry)
    (o : OverrideEntry) (post : List OverrideEntry)
    (disk : List (String × FsKind)) (e : UklientError)
    (hpre : ∀ p ∈ pre, overrideOk p)
    (ho : ∀ d, apply_override d o = .error e) :
    install_overrides (pre ++ o :: post) disk =
      (pre.foldl (fun d p => diskInsert d p.name p.kind) disk, some e) := by
  induction pre generalizing disk with
  | nil => simp [install_overrides, ho disk]
  | cons p rest ih =>
    simp only [List.cons_append, install_overrides, List.append_eq,
      apply_override_of_ok disk p (hpre p (by simp))]
    rw [ih (diskInsert disk p.name p.kind) (fun q hq => hpre q (by simp [hq]))]
    simp

theorem diskLookup_diskInsert (disk : List (String × FsKind))
    (name : String) (k : FsKind) :
    diskLookup (diskInsert disk name k) name = some k := by
  simp [diskLookup, diskInsert]

/-! ## Claim C6 -/

/-- C6: the installer processes manifest files and then overrides strictly
sequentially, and the first failing entry aborts `install_modpack`
immediately: a failing download aborts after the preceding downloads (the
overrides and the entries after the failure never run, the processed entries
stay on disk, nothing is rolled back), and a failing override aborts after
all file downloads and the preceding overrides, likewise leaving everything
already processed in place. -/
theorem install_aborts_at_first_failure :
    (∀ (pre : List FileEntry) (f : FileEntry) (post : List FileEntry)
        (ovs : List OverrideEntry) (disk : List (String × FsKind))
        (e : UklientError),
        (∀ g ∈ pre, ∃ n, g.result = .ok n) → f.result = .error e →
        install_entries (pre ++ f :: post) ovs disk =
          (pre.foldl (fun d g => diskInsert d g.name FsKind.file) disk,
           pre.length + 1, some e)) ∧
    (∀ (files : List FileEntry) (pre : List OverrideEntry)
        (o : OverrideEntry) (post : List OverrideEntry)
        (disk : List (String × FsKind)) (e : UklientError),
        (∀ g ∈ files, ∃ n, g.result = .ok n) → (∀ p ∈ pre, overrideOk p) →
        (∀ d, apply_override d o = .error e) →
        install_entries files (pre ++ o :: post) disk =
          (pre.foldl (fun d p => diskInsert d p.name p.kind)
            (files.foldl (fun d g => diskInsert d g.name FsKind.file) disk),
           files.length, some e)) := by
  constructor
  · intro pre f post ovs disk e hpre hf
    unfold install_entries
    rw [download_files_abort pre f post disk e hpre hf]
  · intro files pre o post disk e hfiles hpre ho
    unfold install_entries
    rw [download_files_all_ok files disk hfiles]
    simp only
    rw [install_overrides_abort pre o post _ e hpre ho]

/-- Witness for C6: the download of `b.jar` fails after `a.jar` succeeded;
the install stops with `a.jar` on disk, two download calls, and neither
`c.jar` nor the override was processed. -/
theorem install_aborts_at_first_failure_witness :
    install_entries
        [{ name := "a.jar", result := .ok 10 },
         { name := "b.jar", result := .error .LibiumError },
         { name := "c.jar", result := .ok 5 }]
        [{ name := "config", kind := FsKind.dir, copyOk := true }] []
      = ([("a.jar", FsKind.file)], 2, some .LibiumError) :=
  install_aborts_at_first_failure.1
    [{ name := "a.jar", result := .ok 10 }]
    { name := "b.jar", result := .error .LibiumError }
    [{ name := "c.jar", result := .ok 5 }]
    [{ name := "config", kind := FsKind.dir, copyOk := true }] []
    .LibiumError
    (by
      intro g hg
      rcases List.mem_singleton.mp hg with rfl
      exact ⟨10, rfl⟩)
    rfl

/-! ## Claim C7 -/

/-- C7: a file-kind override is copied into the output directory overwriting
any same-named entry; a directory-kind override is recursively copied with
overwrite semantics, likewise replacing same-named pre-existing content; an
entry of any other kind makes the whole install fail with
`UnknownTypeError` carrying that entry's name. -/
theorem override_application_semantics :
    (∀ (disk : List (String × FsKind)) (o : OverrideEntry),
        o.kind = FsKind.file → o.copyOk = true →
        apply_override disk o = .ok (diskInsert disk o.name FsKind.file) ∧
        diskLookup (diskInsert disk o.name FsKind.file) o.name
          = some FsKind.file) ∧
    (∀ (disk : List (String × FsKind)) (o : OverrideEntry),
        o.kind = FsKind.dir → o.copyOk = true →
        apply_override disk o = .ok (diskInsert disk o.name FsKind.dir) ∧
        diskLookup (diskInsert disk o.name FsKind.dir) o.name
          = some FsKind.dir) ∧
    (∀ (disk : List (String × FsKind)) (o : OverrideEntry),
        o.kind = FsKind.other →
        apply_override disk o = .error (.UnknownTypeError o.name)) ∧
    (∀ (files : List FileEntry) (pre : List OverrideEntry)
        (o : OverrideEntry) (post : List OverrideEntry)
        (disk : List (String × FsKind)),
        o.kind = FsKind.other →
        (∀ g ∈ files, ∃ n, g.result = .ok n) → (∀ p ∈ pre, overrideOk p) →
        (install_entries files (pre ++ o :: post) disk).2.2
          = some (.UnknownTypeError o.name)) := by
  refine ⟨?_, ?_, ?_, ?_⟩
  · intro disk o hk hc
    exact ⟨by simp [apply_override, hk, hc], diskLookup_diskInsert disk o.name _⟩
  · intro disk o hk hc
    exact ⟨by simp [apply_override, hk, hc], diskLookup_diskInsert disk o.name _⟩
  · intro disk o hk
    simp [apply_override, hk]
  · intro files pre o post disk hk hfiles hpre
    unfold install_entries
    rw [download_files_all_ok files disk hfiles]
    simp only
    rw [install_overrides_abort pre o post _ (.UnknownTypeError o.name) hpre
      (fun d => by simp [apply_override, hk])]

/-- Witness for C7: a directory-kind override named `config` lands on a disk
already holding a file named `config` and replaces it; an `other`-kind entry
aborts a concrete install with `UnknownTypeError`. -/
theorem override_application_semantics_witness :
    (apply_override [("config", FsKind.file)]
        { name := "config", kind := FsKind.dir, copyOk := true }
      = .ok (diskInsert [("config", FsKind.file)] "config" FsKind.dir) ∧
     diskLookup (diskInsert [("config", FsKind.file)] "config" FsKind.dir)
        "config" = some FsKind.dir) ∧
    apply_override [] { name := "bad", kind := FsKind.other, copyOk := true }
      = .error (.UnknownTypeError "bad") ∧
    (install_entries []
        [{ name := "bad", kind := FsKind.other, copyOk := true }] []).2.2
      = some (.UnknownTypeError "bad") :=
  ⟨override_application_semantics.2.1 [("config", FsKind.file)]
      { name := "config", kind := FsKind.dir, copyOk := true } rfl rfl,
   override_application_semantics.2.2.1 []
      { name := "bad", kind := FsKind.other, copyOk := true } rfl,
   override_application_semantics.2.2.2 [] []
      { name := "bad", kind := FsKind.other, copyOk := true } [] [] rfl
      (by intro g hg; exact absurd hg (List.not_mem_nil g))
      (by intro p hp; exact absurd hp (List.not_mem_nil p))⟩


/-! ### `Except` reduction lemmas -/

theorem except_bind_ok {ε α β : Type} (a : α) (f : α → Except ε β) :
    (Except.ok a >>= f : Except ε β) = f a := rfl

theorem except_bind_error {ε α β : Type} (e : ε) (f : α → Except ε β) :
    (Except.error e >>= f : Except ε β) = .error e := rfl

theorem except_pure {ε α : Type} (a : α) :
    (pure a : Except ε α) = .ok a := rfl

/-! ### Credential bootstrap helper lemmas -/

theorem login_creds_join_ok (env : AuthEnv) (c : Credentials)
    (h : login_creds env = .ok c) : env.joinResult = .ok (.ok c) := by
  unfold login_creds at h
  cases hr : env.recvResult with
  | error e =>
    simp only [hr, except_bind_error] at h
    exact Except.noConfusion h
  | ok u =>
    simp only [hr, except_bind_ok] at h
    cases hb : env.browserResult with
    | error e =>
      simp only [hb, except_bind_error] at h
      exact Except.noConfusion h
    | ok u2 =>
      simp only [hb, except_bind_ok] at h
      cases hj : env.joinResult with
      | error e =>
        simp only [hj, except_bind_error] at h
        exact Except.noConfusion h
      | ok authResult =>
        simp only [hj, except_bind_ok] at h
        cases ha : authResult with
        | error e =>
          simp only [ha, except_bind_error] at h
          exact Except.noConfusion h
        | ok creds =>
          simp only [ha, except_bind_ok, except_pure, Except.ok.injEq] at h
          rw [h]

theorem interactive_login_created (env : AuthEnv)
    (h : (interactive_login env).fileCreated = true) :
    ∃ c, env.joinResult = .ok (.ok c) ∧ env.createResult = .ok () := by
  unfold interactive_login at h
  revert h
  cases hl : login_creds env with
  | error e => intro h; simp at h
  | ok creds =>
    unfold persist_credentials
    cases hc : env.createResult with
    | error e => intro h; simp at h
    | ok u =>
      intro h
      exact ⟨creds, login_creds_join_ok env creds hl, rfl⟩

/-! ## Claim C1 -/

/-- C1 (evidence of the code bug): with the credential file present, parse
succeeding and the refresh call failing, `connect_account` returns the
refresh error — even though the interactive flow would succeed, it is never
run, its credentials are not returned, and nothing is written. -/
theorem connect_account_refresh_error_propagates :
    connect_account
        { envValidRefresh with refreshResult := fun _ => .error .TheseusError }
      = { result := .error .TheseusError, fileCreated := false } := rfl

/-! ## Claim C9 -/

/-- C9: when the credential file exists and open, parse and refresh all
succeed, `connect_account` returns the refreshed credentials and never
creates or writes `./credentials.json` (on the file-exists branch nothing is
ever written); conversely the credential file is created and written only
after the spawned browser-login task has completed successfully. -/
theorem connect_account_frame (env : AuthEnv) :
    (env.credFileExists = true →
      (connect_account env).fileCreated = false ∧
      ∀ creds refreshed,
        env.openResult = .ok () → env.parseResult = .ok creds →
        env.refreshResult creds.id = .ok refreshed →
        (connect_account env).result = .ok refreshed) ∧
    ((connect_account env).fileCreated = true →
      env.credFileExists = false ∧
      ∃ c, env.joinResult = .ok (.ok c) ∧ env.createResult = .ok ()) := by
  constructor
  · intro hex
    constructor
    · unfold connect_account
      rw [if_pos hex]
    · intro creds refreshed hopen hparse hrefresh
      unfold connect_account
      rw [if_pos hex]
      show refresh_path env = .ok refreshed
      unfold refresh_path
      simp only [hopen, except_bind_ok, hparse, hrefresh, except_pure]
  · intro hc
    by_cases hex : env.credFileExists = true
    · have : (connect_account env).fileCreated = false := by
        unfold connect_account
        rw [if_pos hex]
      rw [this] at hc
      exact absurd hc (by simp)
    · have hint : connect_account env = interactive_login env := by
        unfold connect_account
        rw [if_neg hex]
      rw [hint] at hc
      exact ⟨by simpa using hex, interactive_login_created env hc⟩

/-- Witness for C9: a concrete refresh-success run writes nothing and
returns the refreshed credentials; a concrete browser-login run that created
the file indeed had no credential file and a successful login task. -/
theorem connect_account_frame_witness :
    ((connect_account envValidRefresh).fileCreated = false ∧
     (connect_account envValidRefresh).result
        = .ok { id := "id0", username := "uku" }) ∧
    (envBrowserLogin.credFileExists = false ∧
     ∃ c, envBrowserLogin.joinResult = .ok (.ok c) ∧
          envBrowserLogin.createResult = .ok ()) :=
  ⟨⟨((connect_account_frame envValidRefresh).1 rfl).1,
    ((connect_account_frame envValidRefresh).1 rfl).2
      { id := "id0", username := "uku" } { id := "id0", username := "uku" }
      rfl rfl rfl⟩,
   (connect_account_frame envBrowserLogin).2 rfl⟩

/-! ## Claim C10 -/

/-- C10: the overrides directory of the extracted archive is enumerated (its
top-level entries read) before any manifest file is downloaded; when the
extraction produced no overrides directory, `install_modpack` fails with the
filesystem I/O error kind having issued zero manifest downloads and leaving
the output directory untouched — a modpack without an overrides subtree
cannot be installed. -/
theorem missing_overrides_dir_fails_before_downloads (env : InstallEnv)
    (disk : List (String × FsKind)) (versions : List ModpackVersion)
    (v : ModpackVersion) (c : List String × List String × Nat) (md : Metadata)
    (hv : env.listVersions = .ok versions)
    (hsel : selectVersion versions env.game_version env.loader = .ok v)
    (hcache : ensure_cached env.home env.cacheFiles env.primaryFilename
        env.archiveDownloadOk = .ok c)
    (hopen : env.openOk = true)
    (hmd : env.metadata = .ok md)
    (hext : env.extractOk = true)
    (hov : env.overridesDir = none) :
    install_modpack env disk =
      { result := some .IoError, manifestDownloads := 0, disk := disk } := by
  have hpre : install_prelude env = .error .IoError := by
    unfold install_prelude
    simp only [hv, hsel, hcache, hopen, hmd, hext, hov, open_modpack_file,
      extract_archive, read_overrides, except_bind_ok, except_bind_error]
  unfold install_modpack
  rw [hpre]

/-- Witness for C10 at a concrete environment. -/
theorem missing_overrides_dir_fails_before_downloads_witness :
    install_modpack envNoOverrides [] =
      { result := some .IoError, manifestDownloads := 0, disk := [] } :=
  missing_overrides_dir_fails_before_downloads envNoOverrides []
    [sampleVersionB] sampleVersionB
    (["pack.mrpack"], modpack_path ["home"] "pack.mrpack", 0)
    { name := "pack", files := [{ name := "a.jar", result := .ok 3 }] }
    rfl (by rfl) (by rfl) rfl rfl rfl rfl

end Uklient
